import Mathlib

/-!
Verification of the color-palette utilities of the `kondo` plotting-helper
library: the per-channel lighten/darken transforms, the named palette
registry, and the color-cycle installation, embedded shallowly with
rationals standing for the real channel values.
-/

namespace Kondo

/-- A color as registered in `PALETTES`: either a hex string of the form
`#RRGGBB`, or a numeric RGB triple with channels as rationals. -/
inductive Color where
  | hex (s : String)
  | rgb (r g b : ℚ)
deriving DecidableEq

/-- A palette: an ordered sequence of colors. -/
abbrev Palette := List Color

/-- `lighten(clr, f=1/3)`: `gaps = [f * (1 - val) for val in clr]`;
`new_clr = [val + gap for gap, val in zip(gaps, clr)]`. -/
def lighten (clr : List ℚ) (f : ℚ := 1/3) : List ℚ :=
  let gaps := clr.map (fun val => f * (1 - val))
  (List.zip gaps clr).map (fun p => p.2 + p.1)

/-- `darken(clr, f=1/3)`: `gaps = [f * val for val in clr]`;
`new_clr = [val - gap for gap, val in zip(gaps, clr)]`. -/
def darken (clr : List ℚ) (f : ℚ := 1/3) : List ℚ :=
  let gaps := clr.map (fun val => f * val)
  (List.zip gaps clr).map (fun p => p.2 - p.1)

/-- `lighten_color(color, f=1/3)`, the duplicate of `lighten` used by
`lighten_palette`, translated from its own definition. -/
def lighten_color (color : List ℚ) (f : ℚ := 1/3) : List ℚ :=
  let gaps := color.map (fun val => f * (1 - val))
  (List.zip gaps color).map (fun p => p.2 + p.1)

/-- `darken_color(color, f=1/3)`, the duplicate of `darken` used by
`darken_palette`, translated from its own definition. -/
def darken_color (color : List ℚ) (f : ℚ := 1/3) : List ℚ :=
  let gaps := color.map (fun val => f * val)
  (List.zip gaps color).map (fun p => p.2 - p.1)

/-- `lighten_palette(palette, f=1/3) = [lighten_color(p, f=f) for p in palette]`. -/
def lighten_palette (palette : List (List ℚ)) (f : ℚ := 1/3) : List (List ℚ) :=
  palette.map (fun p => lighten_color p f)

/-- `darken_palette(palette, f=1/3) = [darken_color(p, f=f) for p in palette]`. -/
def darken_palette (palette : List (List ℚ)) (f : ℚ := 1/3) : List (List ℚ) :=
  palette.map (fun p => darken_color p f)

/-- The module-level `PALETTES` dictionary, in insertion order. -/
def PALETTES : List (String × Palette) :=
  [ (("tianyi"),
      [Color.hex ("#1d437d"), Color.hex ("#ee442f"), Color.hex ("#0099ad"),
       Color.hex ("#dec923"), Color.hex ("#a95aa1"), Color.hex ("#f78f1e"),
       Color.hex ("#ccbe9f"), Color.hex ("#29562a"), Color.hex ("#99cc83")]),
    (("bmh"),
      [Color.hex ("#348ABD"), Color.hex ("#A60628"), Color.hex ("#7A68A6"),
       Color.hex ("#467821"), Color.hex ("#D55E00"), Color.hex ("#CC79A7"),
       Color.hex ("#56B4E9"), Color.hex ("#009E73"), Color.hex ("#F0E442"),
       Color.hex ("#0072B2")]),
    (("solarized-light"),
      [Color.hex ("#268BD2"), Color.hex ("#2AA198"), Color.hex ("#859900"),
       Color.hex ("#B58900"), Color.hex ("#CB4B16"), Color.hex ("#DC322F"),
       Color.hex ("#D33682"), Color.hex ("#6C71C4")]),
    (("fivethirtyeight"),
      [Color.hex ("#008fd5"), Color.hex ("#fc4f30"), Color.hex ("#e5ae38"),
       Color.hex ("#6d904f"), Color.hex ("#8b8b8b"), Color.hex ("#810f7c")]),
    (("ggplot"),
      [Color.hex ("#E24A33"), Color.hex ("#348ABD"), Color.hex ("#988ED5"),
       Color.hex ("#777777"), Color.hex ("#FBC15E"), Color.hex ("#8EBA42"),
       Color.hex ("#FFB5B8")]),
    (("degas-high-contrast"),
      [Color.rgb 0.372549 0.596078 1,
       Color.rgb 1.0 0.3882 0.2784,
       Color.rgb 0.20784314 0.67843137 0.6,
       Color.rgb 0.59607843 0.25882353 0.89019608,
       Color.rgb 0.803922 0.0627451 0.462745,
       Color.rgb 0.917647 0.682353 0.105882,
       Color.rgb 0.7 0.7 0.7]),
    (("degas-pastel-rainbow"),
      [Color.rgb (221/255) (59/255) (53/255),
       Color.rgb (211/255) (132/255) (71/255),
       Color.rgb (237/255) (157/255) (63/255),
       Color.rgb (165/255) (180/255) (133/255),
       Color.rgb (63/255) (148/255) (109/255),
       Color.rgb (50/255) (122/255) (137/255),
       Color.rgb (44/255) (115/255) (178/255),
       Color.rgb (43/255) (52/255) (124/255)]) ]

/-- The process-wide state the palette functions touch: the `PALETTES`
registry dictionary and matplotlib's active color cycle, the
`plt.rcParams` entry `axes.prop_cycle` (`none` means not yet set by us). -/
structure KondoState where
  palettes : List (String × Palette)
  prop_cycle : Option Palette
deriving DecidableEq

/-- The state at process start: the registry as written in the module,
no color cycle installed by this library. -/
def initState : KondoState :=
  KondoState.mk PALETTES none

/-- `get_palette(palette_name) = PALETTES[palette_name]`; a missing key
raises `KeyError(palette_name)`, modelled as an `Except.error` carrying
the unknown key. -/
def get_palette (s : KondoState) (palette_name : String) : Except String Palette :=
  match s.palettes.lookup palette_name with
  | some p => Except.ok p
  | none => Except.error palette_name

/-- `set_palette(palette)`: a string argument is resolved through
`get_palette` (propagating its `KeyError`); the resulting sequence is
installed as `plt.rcParams["axes.prop_cycle"] = cycler("color", palette)`,
modelled as replacing the `prop_cycle` field with a copy of the palette. -/
def set_palette (s : KondoState) (palette : String ⊕ Palette) :
    Except String KondoState :=
  match palette with
  | Sum.inl name =>
    match get_palette s name with
    | Except.ok p => Except.ok (KondoState.mk s.palettes (some p))
    | Except.error e => Except.error e
  | Sum.inr p => Except.ok (KondoState.mk s.palettes (some p))

/-- Helper: the zip-based comprehension in `lighten` is an elementwise map. -/
theorem lighten_eq_map (clr : List ℚ) (f : ℚ) :
    lighten clr f = clr.map (fun val => val + f * (1 - val)) := by
  induction clr with
  | nil => rfl
  | cons v tl ih =>
    simp only [lighten, List.map_cons, List.zip_cons_cons] at ih ⊢
    exact congrArg (List.cons _) ih

/-- Helper: the zip-based comprehension in `darken` is an elementwise map. -/
theorem darken_eq_map (clr : List ℚ) (f : ℚ) :
    darken clr f = clr.map (fun val => val - f * val) := by
  induction clr with
  | nil => rfl
  | cons v tl ih =>
    simp only [darken, List.map_cons, List.zip_cons_cons] at ih ⊢
    exact congrArg (List.cons _) ih

/-- Helper: a name absent from the key column of an association list has
no lookup result. -/
theorem lookup_eq_none_of_not_mem_keys (l : List (String × Palette)) (name : String)
    (h : name ∉ l.map Prod.fst) : l.lookup name = none := by
  induction l with
  | nil => rfl
  | cons hd tl ih =>
    simp only [List.map_cons, List.mem_cons] at h
    push_neg at h
    have hne : (name == hd.1) = false := beq_eq_false_iff_ne.mpr h.1
    simp [List.lookup, hne, ih h.2]

/-- C1: for every numeric color triple `(r, g, b)` and every `f`, `lighten`
returns the triple with each channel `v` replaced by `v + f * (1 - v)` and
`darken` the triple with each channel `v` replaced by `v - f * v`; for
both, omitting `f` is the same as passing the default `1/3`. -/
theorem lighten_darken_formula (r g b f : ℚ) :
    lighten [r, g, b] f = [r + f * (1 - r), g + f * (1 - g), b + f * (1 - b)] ∧
    darken [r, g, b] f = [r - f * r, g - f * g, b - f * b] ∧
    lighten [r, g, b] = lighten [r, g, b] (1/3) ∧
    darken [r, g, b] = darken [r, g, b] (1/3) :=
  ⟨rfl, rfl, rfl, rfl⟩

/-- C2 counterexample: on a two-channel numeric input — not exactly three
channels — `lighten` and `darken` do not fail with any error: they return
an ordinary fully-transformed two-channel result. -/
theorem lighten_darken_two_channels_no_error :
    lighten [(1:ℚ)/2, 1/2] (1/3) = [2/3, 2/3] ∧
    darken [(1:ℚ)/2, 1/2] (1/3) = [1/3, 1/3] := by
  constructor <;> · show [_, _] = _; norm_num

/-- C2 amended: `lighten` and `darken` perform no shape validation: a
numeric sequence of any length is transformed per channel into a sequence
of the same length, with no error for lengths other than three. -/
theorem lighten_darken_no_shape_validation (clr : List ℚ) (f : ℚ) :
    lighten clr f = clr.map (fun val => val + f * (1 - val)) ∧
    darken clr f = clr.map (fun val => val - f * val) ∧
    (lighten clr f).length = clr.length ∧
    (darken clr f).length = clr.length := by
  refine ⟨lighten_eq_map clr f, darken_eq_map clr f, ?_, ?_⟩ <;>
    simp [lighten_eq_map, darken_eq_map]

/-- C3: for every name that is not a key of the registry, `get_palette`
fails with an error naming the unknown key, and `set_palette` on that name
fails with the same error (no retry, fallback, or partial matching). -/
theorem unknown_name_error (s : KondoState) (name : String)
    (h : name ∉ s.palettes.map Prod.fst) :
    get_palette s name = Except.error name ∧
    set_palette s (Sum.inl name) = Except.error name := by
  have hl := lookup_eq_none_of_not_mem_keys s.palettes name h
  constructor <;> simp [get_palette, set_palette, hl]

/-- C3 witness: the name `nonexistent` is not registered, and both lookups
fail with the error naming it. -/
theorem unknown_name_error_witness :
    get_palette initState ("nonexistent") = Except.error ("nonexistent") ∧
    set_palette initState (Sum.inl ("nonexistent")) = Except.error ("nonexistent") :=
  unknown_name_error initState ("nonexistent") (by decide)

/-- C4: there is a color triple with channels in `[0, 1]` and an `f > 0`
for which darkening after lightening with the same `f` does not give back
the original color: the two transforms are not exact inverses. -/
theorem lighten_darken_not_inverse :
    ∃ (r g b f : ℚ), (0 ≤ r ∧ r ≤ 1) ∧ (0 ≤ g ∧ g ≤ 1) ∧ (0 ≤ b ∧ b ≤ 1) ∧
      0 < f ∧ darken (lighten [r, g, b] f) f ≠ [r, g, b] := by
  refine ⟨0, 0, 0, 1/3, by norm_num, by norm_num, by norm_num, by norm_num, ?_⟩
  show [_, _, _] ≠ _
  norm_num

/-- C5: with `f = 0` both transforms are the identity on every color
triple with channels in `[0, 1]`. -/
theorem lighten_darken_identity_at_zero (r g b : ℚ)
    (_h : (0 ≤ r ∧ r ≤ 1) ∧ (0 ≤ g ∧ g ≤ 1) ∧ (0 ≤ b ∧ b ≤ 1)) :
    lighten [r, g, b] 0 = [r, g, b] ∧ darken [r, g, b] 0 = [r, g, b] := by
  constructor <;> · show [_, _, _] = _; norm_num

/-- C5 witness: the identity at `f = 0` on the concrete triple
`(1/2, 1/2, 1/2)`, whose channels lie in `[0, 1]`. -/
theorem lighten_darken_identity_at_zero_witness :
    lighten [(1:ℚ)/2, 1/2, 1/2] 0 = [1/2, 1/2, 1/2] ∧
    darken [(1:ℚ)/2, 1/2, 1/2] 0 = [1/2, 1/2, 1/2] :=
  lighten_darken_identity_at_zero (1/2) (1/2) (1/2) (by norm_num)

/-- C6: with `f = 1`, `lighten` sends every triple to all-ones and
`darken` sends every triple to all-zeros. -/
theorem lighten_darken_extremes_at_one (r g b : ℚ) :
    lighten [r, g, b] 1 = [1, 1, 1] ∧ darken [r, g, b] 1 = [0, 0, 0] := by
  constructor <;> · show [_, _, _] = _; norm_num

/-- C7: the palette-level transforms preserve length and order, with entry
`i` of the result being the per-color transform of entry `i` of the input
(the input palette itself is untouched: the result is a new list). -/
theorem palette_transforms_pointwise (P : List (List ℚ)) (f : ℚ) :
    (lighten_palette P f).length = P.length ∧
    (darken_palette P f).length = P.length ∧
    (∀ i : ℕ, (lighten_palette P f)[i]? = (P[i]?).map (fun c => lighten_color c f)) ∧
    (∀ i : ℕ, (darken_palette P f)[i]? = (P[i]?).map (fun c => darken_color c f)) := by
  refine ⟨?_, ?_, fun i => ?_, fun i => ?_⟩ <;>
    simp [lighten_palette, darken_palette]

/-- C8: every registered name resolves to a non-empty palette, repeated
lookups of the same name agree, and the first entry of the `bmh` palette
is the hex string `#348ABD`. -/
theorem registry_lookup_properties :
    ((PALETTES.map Prod.fst).all fun name =>
        match get_palette initState name with
        | Except.ok p => !p.isEmpty
        | Except.error _ => false) = true ∧
    (∀ s name, get_palette s name = get_palette s name) ∧
    ∃ p, get_palette initState ("bmh") = Except.ok p ∧
      p.head? = some (Color.hex ("#348ABD")) := by
  exact ⟨by decide, fun s name => rfl, ⟨_, rfl, rfl⟩⟩

/-- C9: a successful `set_palette` call, with a registered name or an
explicit palette, leaves the registry exactly as it was: only the color
cycle field of the state changes. -/
theorem set_palette_preserves_registry (s t : KondoState) (arg : String ⊕ Palette)
    (h : set_palette s arg = Except.ok t) :
    t.palettes = s.palettes := by
  cases arg with
  | inl name =>
    simp only [set_palette, get_palette] at h
    cases hl : s.palettes.lookup name with
    | none => rw [hl] at h; cases h
    | some p => rw [hl] at h; cases h; rfl
  | inr p =>
    simp only [set_palette] at h
    cases h; rfl

/-- C9 witness: installing the explicit empty palette from the initial
state leaves the registry of the resulting state equal to the initial
registry. -/
theorem set_palette_preserves_registry_witness :
    (KondoState.mk PALETTES (some [])).palettes = initState.palettes :=
  set_palette_preserves_registry initState (KondoState.mk PALETTES (some []))
    (Sum.inr []) rfl

/-- C10: the duplicated transforms `lighten_color` and `darken_color` used
by the palette-level functions agree with the public `lighten` and
`darken` on every input sequence and every `f`. -/
theorem color_variants_extensionally_equal (clr : List ℚ) (f : ℚ) :
    lighten_color clr f = lighten clr f ∧ darken_color clr f = darken clr f :=
  ⟨rfl, rfl⟩

end Kondo
